import Mathlib

/-!
Verification of the RefOS process-server global-state helpers
(`impl/apps/process_server/src/state.c`) against their specification.

The C file manipulates seL4 kernel objects through the `vka`/`vspace`/`simple`
libraries.  We shallowly embed the file: the process-server global state
(`struct procserv_state`) becomes a Lean structure, each kernel call becomes an
explicit state transition, and the outcomes of the kernel calls that can fail
(slot allocation, minting, page mapping, IRQ acquisition, device lookup) are
driven by an explicit `KernelEnv` oracle so that every control-flow path of the
C code is represented.  Machine integers are `Nat` with explicit `% 2 ^ 32`
where C unsigned (size_t / uint32_t on the 32-bit ARM target) overflow matters.
-/

/-- seL4_PageBits on the target architecture (ARM / IA32, 4 KiB pages). -/
def seL4_PageBits : Nat := 12

/-- REFOS_PAGE_SIZE = (1 << seL4_PageBits) = 4096 bytes. -/
def REFOS_PAGE_SIZE : Nat := 2 ^ seL4_PageBits

/-- Modulus of `size_t` / `uint32_t` arithmetic on the 32-bit target. -/
def sizeTMod : Nat := 2 ^ 32

/-- Error codes from refos (returned as `int` by the frame transfer calls). -/
inductive RefosError where
  | ESUCCESS
  | EINVALIDPARAM
  | ENOMEM
deriving DecidableEq, Repr

export RefosError (ESUCCESS EINVALIDPARAM ENOMEM)

/-- `cspacepath_t`: a capability-slot path (root CNode, slot pointer, depth). -/
structure cspacepath_t where
  root : Nat
  capPtr : Nat
  capDepth : Nat
deriving DecidableEq, Repr

/-- The all-zero path produced by `memset(&path, 0, sizeof(cspacepath_t))`;
a `capPtr = 0` path is the failure sentinel. -/
def emptyPath : cspacepath_t := ⟨0, 0, 0⟩

/-- Kernel objects a capability can designate in this development. -/
inductive KObj where
  | endpointObj : Nat → KObj
  | deviceFrameObj : Nat → Nat → KObj
  | irqHandlerObj : Nat → KObj
deriving DecidableEq, Repr

/-- A capability value: designated object, rights, and optional badge. -/
structure Cap where
  obj : KObj
  canRead : Bool
  canWrite : Bool
  canGrant : Bool
  badge : Option Nat
deriving DecidableEq, Repr

/-- `struct procserv_state`: the fields touched by the verified helpers.
`nextSlot`/`allocated` model the vka cspace allocator (fresh slots come from
the counter, `vka_cspace_free` removes a slot from the allocated list);
`caps` is the contents of the server capability space; `frames` gives the byte
contents of every physical frame, indexed by the frame capability; `mapped`
lists the server-vspace addresses currently holding a temporary mapping;
`flushLog` records every instruction-cache unify operation issued;
`irqHandlerList` is the chash IRQ-handler table (0 = absent); `faketime` is
the uint32_t logical clock. -/
structure procserv_state where
  nextSlot : Nat
  allocated : List Nat
  caps : Nat → Option Cap
  endpointSlot : Nat
  frames : Nat → Nat → Nat
  mapped : List Nat
  flushLog : List (Nat × Nat × Nat)
  irqHandlerList : Nat → Nat
  faketime : Nat

/-- Outcomes of the fallible kernel/library calls, supplied by the
environment: whether `vka_cspace_alloc_path` finds a slot, whether
`vka_cnode_mint` succeeds, the address returned by `vspace_map_pages`
(`none` = mapping failed), whether `seL4_IRQControl_Get` succeeds, whether
`simple_get_frame_cap` finds the device, and the junk contents of an
uninitialised stack `cspacepath_t`. -/
structure KernelEnv where
  allocOk : Bool
  mintOk : Bool
  mapResult : Option Nat
  irqGetOk : Bool
  devGetOk : Bool
  uninitPath : cspacepath_t

/-- Root CNode reference that vka writes into allocated paths. -/
def vkaRootCNode : Nat := 2

/-- CNode depth that vka writes into allocated paths (seL4_WordBits). -/
def vkaCNodeDepth : Nat := 32

/-- `vka_cspace_alloc_path`: on success hands out the next free slot of the
cspace allocator and records it as allocated. -/
def vka_cspace_alloc_path (env : KernelEnv) (st : procserv_state) :
    Option (cspacepath_t × procserv_state) :=
  if env.allocOk then
    some (⟨vkaRootCNode, st.nextSlot, vkaCNodeDepth⟩,
      { st with nextSlot := st.nextSlot + 1, allocated := st.nextSlot :: st.allocated })
  else
    none

/-- `vka_cspace_free`: returns a slot to the allocator. -/
def vka_cspace_free (st : procserv_state) (slot : Nat) : procserv_state :=
  { st with allocated := st.allocated.erase slot }

/-- `vka_cspace_make_path`: builds the path designating an existing slot. -/
def vka_cspace_make_path (cptr : Nat) : cspacepath_t :=
  ⟨vkaRootCNode, cptr, vkaCNodeDepth⟩

/-- The rights word `seL4_CanGrant | seL4_CanWrite` passed by
`procserv_mint_badge`, as (read, write, grant) flags. -/
def mintRightsRead : Bool := false

/-- Write component of `seL4_CanGrant | seL4_CanWrite`. -/
def mintRightsWrite : Bool := true

/-- Grant component of `seL4_CanGrant | seL4_CanWrite`. -/
def mintRightsGrant : Bool := true

/-- The capability produced by a seL4 mint: a copy of the source capability
with the rights masked by the requested rights and the badge installed. -/
def mintedCap (src : Cap) (r w g : Bool) (badge : Nat) : Cap :=
  { obj := src.obj
    canRead := src.canRead && r
    canWrite := src.canWrite && w
    canGrant := src.canGrant && g
    badge := some badge }

/-- `vka_cnode_mint dest src rights badge`: derives, into the destination
slot, a badged and rights-restricted copy of the capability in the source
slot.  Fails when the environment says so or the source slot is empty. -/
def vka_cnode_mint (env : KernelEnv) (st : procserv_state)
    (dest src : cspacepath_t) (r w g : Bool) (badge : Nat) :
    Option procserv_state :=
  if env.mintOk then
    match st.caps src.capPtr with
    | some c =>
        let caps2 := fun s =>
          if s = dest.capPtr then some (mintedCap c r w g badge) else st.caps s
        some { st with caps := caps2 }
    | none => none
  else
    none

/-- `procserv_flush(frame, nFrames)` (ARM build): skips a NULL frame array,
then unifies the instruction cache over `[0, REFOS_PAGE_SIZE)` for every
non-null entry `frame[i]`, `0 ≤ i < nFrames`, skipping null entries.  The
returned list records the unify operations issued, in order. -/
def procserv_flush (frame : Option (List Nat)) (nFrames : Nat) :
    List (Nat × Nat × Nat) :=
  match frame with
  | none => []
  | some fs =>
      (List.range nFrames).filterMap fun i =>
        if fs.getD i 0 = 0 then none else some (fs.getD i 0, 0, REFOS_PAGE_SIZE)

/-- `procserv_frame_write(frame, src, len, offset)`: bounds-check
`offset + len > REFOS_PAGE_SIZE` in size_t arithmetic; temporarily map the
frame; `memcpy(addr + offset, src, len)` into the frame; flush the frame's
instruction cache; unmap; return `ESUCCESS`. -/
def procserv_frame_write (env : KernelEnv) (st : procserv_state)
    (frame : Nat) (src : Nat → Nat) (len offset : Nat) :
    RefosError × procserv_state :=
  if (offset + len) % sizeTMod > REFOS_PAGE_SIZE then
    (EINVALIDPARAM, st)
  else
    match env.mapResult with
    | none => (ENOMEM, st)
    | some addr =>
        let st1 := { st with mapped := addr :: st.mapped }
        let frames2 := fun f o =>
          if f = frame ∧ offset ≤ o ∧ o < offset + len then src (o - offset)
          else st1.frames f o
        let st2 := { st1 with frames := frames2 }
        let st3 := { st2 with flushLog := st2.flushLog ++ procserv_flush (some [frame]) 1 }
        let st4 := { st3 with mapped := st3.mapped.erase addr }
        (ESUCCESS, st4)

/-- `procserv_frame_read(frame, dst, len, offset)`: bounds-check
`offset + len > REFOS_PAGE_SIZE` in size_t arithmetic; temporarily map the
frame; flush the frame's instruction cache; `memcpy(dst, addr + offset, len)`
out of the frame; unmap; return `ESUCCESS`.  The middle component of the
result is the destination buffer after the call. -/
def procserv_frame_read (env : KernelEnv) (st : procserv_state)
    (frame : Nat) (dst : Nat → Nat) (len offset : Nat) :
    RefosError × (Nat → Nat) × procserv_state :=
  if (offset + len) % sizeTMod > REFOS_PAGE_SIZE then
    (EINVALIDPARAM, dst, st)
  else
    match env.mapResult with
    | none => (ENOMEM, dst, st)
    | some addr =>
        let st1 := { st with mapped := addr :: st.mapped }
        let st2 := { st1 with flushLog := st1.flushLog ++ procserv_flush (some [frame]) 1 }
        let dst2 := fun i => if i < len then st2.frames frame (offset + i) else dst i
        let st3 := { st2 with mapped := st2.mapped.erase addr }
        (ESUCCESS, dst2, st3)

/-- `procserv_mint_badge(badge)`: zero the result path; allocate a fresh
cslot (failure: return the zeroed path); mint a
`seL4_CanGrant | seL4_CanWrite` badged copy of the main endpoint capability
into the slot (failure: free the slot, re-zero and return the path); on
success return the populated path. -/
def procserv_mint_badge (env : KernelEnv) (st : procserv_state) (badge : Nat) :
    cspacepath_t × procserv_state :=
  match vka_cspace_alloc_path env st with
  | none => (emptyPath, st)
  | some (path, st1) =>
      let pathSrc := vka_cspace_make_path st1.endpointSlot
      match vka_cnode_mint env st1 path pathSrc
          mintRightsRead mintRightsWrite mintRightsGrant badge with
      | none => (emptyPath, vka_cspace_free st1 path.capPtr)
      | some st2 => (path, st2)

/-- The loop of `procserv_find_device`: the first `i` with `0 ≤ i < 32` and
`(1 << i) == size`, if any. -/
def findSizeBits (size : Nat) : Option Nat :=
  (List.range 32).find? fun i => 2 ^ i == size

/-- `procserv_find_device(paddr, size)`: compute the size in bits by scanning
`i = 0..31` (failure: return with `capPtr = 0`, the rest of the stack path
uninitialised); allocate a cslot (failure: return with `capPtr = 0`); ask
`simple_get_frame_cap` for the device frame (failure: free the slot and
return the path with `capPtr` zeroed); on success return the populated
path. -/
def procserv_find_device (env : KernelEnv) (st : procserv_state)
    (paddr : Nat) (size : Nat) : cspacepath_t × procserv_state :=
  match findSizeBits size with
  | none => ({ env.uninitPath with capPtr := 0 }, st)
  | some sizeBits =>
      match vka_cspace_alloc_path env st with
      | none => ({ env.uninitPath with capPtr := 0 }, st)
      | some (path, st1) =>
          if env.devGetOk then
            let caps2 := fun s =>
              if s = path.capPtr then
                some (Cap.mk (KObj.deviceFrameObj paddr sizeBits) true true true none)
              else st1.caps s
            (path, { st1 with caps := caps2 })
          else
            ({ path with capPtr := 0 }, vka_cspace_free st1 path.capPtr)

/-- `procserv_get_irq_handler(irq)`: return the cached handler if the chash
table has one; otherwise allocate a cslot (failure: return 0), perform
`seL4_IRQControl_Get` into it (failure: free the slot and return 0), cache
`irq -> capPtr` and return the capPtr. -/
def procserv_get_irq_handler (env : KernelEnv) (st : procserv_state)
    (irq : Nat) : Nat × procserv_state :=
  let existingHandler := st.irqHandlerList irq
  if existingHandler ≠ 0 then
    (existingHandler, st)
  else
    match vka_cspace_alloc_path env st with
    | none => (0, st)
    | some (handler, st1) =>
        if env.irqGetOk then
          let caps2 := fun s =>
            if s = handler.capPtr then
              some (Cap.mk (KObj.irqHandlerObj irq) true true true none)
            else st1.caps s
          let st2 := { st1 with caps := caps2 }
          let cache2 := fun i =>
            if i = irq then handler.capPtr else st2.irqHandlerList i
          let st3 := { st2 with irqHandlerList := cache2 }
          (handler.capPtr, st3)
        else
          (0, vka_cspace_free st1 handler.capPtr)

/-- `faketime()`: `return procServ.faketime++;` on the uint32_t field. -/
def faketime (st : procserv_state) : Nat × procserv_state :=
  (st.faketime, { st with faketime := (st.faketime + 1) % sizeTMod })

/-- Allocator sanity invariant established by bootstrap: slot numbers are
positive and every allocated slot is below the allocation counter, so the
counter value is a fresh, non-null slot. -/
def AllocInv (st : procserv_state) : Prop :=
  0 < st.nextSlot ∧ ∀ s ∈ st.allocated, s < st.nextSlot

/-- The process-server state after `n` completed calls of `faketime`,
starting from `st0`. -/
def faketimeStateAfter (st0 : procserv_state) : Nat → procserv_state
  | 0 => st0
  | n + 1 => (faketime (faketimeStateAfter st0 n)).2

/-- The value returned by call number `n` (0-based) of `faketime` in the
execution starting from `st0`. -/
def faketimeValueAt (st0 : procserv_state) (n : Nat) : Nat :=
  (faketime (faketimeStateAfter st0 n)).1

/-! ## Concrete fixtures used by witnesses and counterexamples -/

/-- A kernel environment in which every kernel call succeeds; `vspace_map_pages`
returns address `0x30000000`. -/
def okEnv : KernelEnv := ⟨true, true, some 805306368, true, true, emptyPath⟩

/-- A kernel environment in which `vka_cspace_alloc_path` fails. -/
def noAllocEnv : KernelEnv := ⟨false, true, some 805306368, true, true, emptyPath⟩

/-- A kernel environment in which `vka_cnode_mint` fails. -/
def noMintEnv : KernelEnv := ⟨true, false, some 805306368, true, true, emptyPath⟩

/-- A kernel environment in which `vspace_map_pages` fails (returns NULL). -/
def noMapEnv : KernelEnv := ⟨true, true, none, true, true, emptyPath⟩

/-- A kernel environment in which `simple_get_frame_cap` fails. -/
def noDevEnv : KernelEnv := ⟨true, true, some 805306368, true, false, emptyPath⟩

/-- A process-server state as just after boot: the main endpoint capability
sits in slot 1, the allocation counter is at 2, the caches are empty and the
logical clock is 0. -/
def bootState : procserv_state where
  nextSlot := 2
  allocated := [1]
  caps := fun s =>
    if s = 1 then some (Cap.mk (KObj.endpointObj 0) true true true none) else none
  endpointSlot := 1
  frames := fun _ _ => 0
  mapped := []
  flushLog := []
  irqHandlerList := fun _ => 0
  faketime := 0

/-! ## Claim theorems -/

/-- Claim C1: for every frame capability and data buffer, and every
`(offset, len)` with `offset + len ≤ REFOS_PAGE_SIZE`, performing
`procserv_frame_write(frame, src, len, offset)` and then
`procserv_frame_read(frame, dst, len, offset)` (both temporary mappings
succeeding) returns exactly the bytes of `src` in the destination buffer,
and both calls return `ESUCCESS`. -/
theorem frame_write_read_round_trip
    (env1 env2 : KernelEnv) (st : procserv_state) (frame : Nat)
    (src dst : Nat → Nat) (len offset : Nat)
    (hlen : offset + len ≤ REFOS_PAGE_SIZE)
    (a1 a2 : Nat) (h1 : env1.mapResult = some a1) (h2 : env2.mapResult = some a2) :
    (procserv_frame_write env1 st frame src len offset).1 = ESUCCESS ∧
    (procserv_frame_read env2 (procserv_frame_write env1 st frame src len offset).2
        frame dst len offset).1 = ESUCCESS ∧
    ∀ i, i < len →
      (procserv_frame_read env2 (procserv_frame_write env1 st frame src len offset).2
          frame dst len offset).2.1 i = src i := by
  have hmod : (offset + len) % sizeTMod = offset + len := by
    apply Nat.mod_eq_of_lt
    have : REFOS_PAGE_SIZE < sizeTMod := by norm_num [REFOS_PAGE_SIZE, seL4_PageBits, sizeTMod]
    omega
  have hc : ¬ ((offset + len) % sizeTMod > REFOS_PAGE_SIZE) := by omega
  refine ⟨?_, ?_, ?_⟩
  · simp only [procserv_frame_write, if_neg hc, h1]
  · simp only [procserv_frame_write, procserv_frame_read, if_neg hc, h1, h2]
  · intro i hi
    simp only [procserv_frame_write, procserv_frame_read, if_neg hc, h1, h2]
    simp only [hi, if_pos]
    have hcond : frame = frame ∧ offset ≤ offset + i ∧ offset + i < offset + len :=
      ⟨rfl, Nat.le_add_right _ _, by omega⟩
    simp [hcond, Nat.add_sub_cancel_left]

/-- Witness for C1 at a concrete input. -/
theorem frame_write_read_round_trip_witness :
    100 + 3 ≤ REFOS_PAGE_SIZE ∧ okEnv.mapResult = some 805306368 ∧
    ((procserv_frame_write okEnv bootState 5 (fun i => i + 10) 3 100).1 = ESUCCESS ∧
     (procserv_frame_read okEnv
         (procserv_frame_write okEnv bootState 5 (fun i => i + 10) 3 100).2
         5 (fun _ => 0) 3 100).1 = ESUCCESS ∧
     ∀ i, i < 3 →
       (procserv_frame_read okEnv
           (procserv_frame_write okEnv bootState 5 (fun i => i + 10) 3 100).2
           5 (fun _ => 0) 3 100).2.1 i = (fun i => i + 10) i) :=
  ⟨by decide, rfl,
    frame_write_read_round_trip okEnv okEnv bootState 5 (fun i => i + 10)
      (fun _ => 0) 3 100 (by decide) 805306368 805306368 rfl rfl⟩

/-- Counterexample for C2 as stated: `offset = 2^32 - 1`, `len = 2` has a
mathematical sum `2^32 + 1 > REFOS_PAGE_SIZE`, yet neither transfer
operation returns `EINVALIDPARAM` — the size_t bounds check wraps. -/
theorem frame_bounds_reject_cex :
    (2 ^ 32 - 1 : Nat) + 2 > REFOS_PAGE_SIZE ∧
    (procserv_frame_write okEnv bootState 5 (fun _ => 0) 2 (2 ^ 32 - 1)).1 ≠ EINVALIDPARAM ∧
    (procserv_frame_read okEnv bootState 5 (fun _ => 0) 2 (2 ^ 32 - 1)).1 ≠ EINVALIDPARAM := by
  refine ⟨?_, ?_, ?_⟩ <;> decide

/-- Claim C2 (amended): for every `(offset, len)` whose size_t sum
`(offset + len) % 2^32` exceeds `REFOS_PAGE_SIZE`, both transfer operations
return `EINVALIDPARAM` and leave the state (hence the mapping list and every
other resource) and the destination buffer untouched. -/
theorem frame_bounds_reject
    (env : KernelEnv) (st : procserv_state) (frame : Nat)
    (src dst : Nat → Nat) (len offset : Nat)
    (h : (offset + len) % sizeTMod > REFOS_PAGE_SIZE) :
    procserv_frame_write env st frame src len offset = (EINVALIDPARAM, st) ∧
    procserv_frame_read env st frame dst len offset = (EINVALIDPARAM, dst, st) := by
  constructor <;> simp [procserv_frame_write, procserv_frame_read, if_pos h]

/-- Witness for the amended C2 at a concrete input. -/
theorem frame_bounds_reject_witness :
    (4095 + 2) % sizeTMod > REFOS_PAGE_SIZE ∧
    (procserv_frame_write okEnv bootState 5 (fun _ => 0) 2 4095 = (EINVALIDPARAM, bootState) ∧
     procserv_frame_read okEnv bootState 5 (fun _ => 0) 2 4095
       = (EINVALIDPARAM, (fun _ => 0), bootState)) :=
  ⟨by decide,
    frame_bounds_reject okEnv bootState 5 (fun _ => 0) (fun _ => 0) 2 4095 (by decide)⟩

/-- Claim C3: on every return path of `procserv_frame_write` and
`procserv_frame_read` — success (including `len = 0`), `EINVALIDPARAM`
rejection, and mapping failure — no temporary mapping remains in the
server's vspace after the call (the mapping list is exactly what it was
before); and when the mapping fails on an otherwise-valid request, the
operation returns `ENOMEM` and mutates nothing at all. -/
theorem frame_transfer_no_lingering_mapping
    (env : KernelEnv) (st : procserv_state) (frame : Nat)
    (src dst : Nat → Nat) (len offset : Nat) :
    (procserv_frame_write env st frame src len offset).2.mapped = st.mapped ∧
    (procserv_frame_read env st frame dst len offset).2.2.mapped = st.mapped ∧
    (env.mapResult = none → ¬ ((offset + len) % sizeTMod > REFOS_PAGE_SIZE) →
      procserv_frame_write env st frame src len offset = (ENOMEM, st) ∧
      procserv_frame_read env st frame dst len offset = (ENOMEM, dst, st)) := by
  refine ⟨?_, ?_, ?_⟩
  · unfold procserv_frame_write
    split
    · rfl
    · cases hm : env.mapResult with
      | none => rfl
      | some addr => simp [List.erase_cons_head]
  · unfold procserv_frame_read
    split
    · rfl
    · cases hm : env.mapResult with
      | none => rfl
      | some addr => simp [List.erase_cons_head]
  · intro hm hc
    constructor <;> simp [procserv_frame_write, procserv_frame_read, if_neg hc, hm]

/-- Witness for C3 at a concrete input (mapping failure on a valid request),
with the inner hypotheses discharged. -/
theorem frame_transfer_no_lingering_mapping_witness :
    (procserv_frame_write noMapEnv bootState 5 (fun _ => 1) 8 0).2.mapped
        = bootState.mapped ∧
    (procserv_frame_read noMapEnv bootState 5 (fun _ => 1) 8 0).2.2.mapped
        = bootState.mapped ∧
    (procserv_frame_write noMapEnv bootState 5 (fun _ => 1) 8 0 = (ENOMEM, bootState) ∧
     procserv_frame_read noMapEnv bootState 5 (fun _ => 1) 8 0
        = (ENOMEM, (fun _ => 1), bootState)) :=
  ⟨(frame_transfer_no_lingering_mapping noMapEnv bootState 5 (fun _ => 1) (fun _ => 1) 8 0).1,
   (frame_transfer_no_lingering_mapping noMapEnv bootState 5 (fun _ => 1) (fun _ => 1) 8 0).2.1,
   (frame_transfer_no_lingering_mapping noMapEnv bootState 5 (fun _ => 1) (fun _ => 1) 8 0).2.2
     rfl (by decide)⟩

/-- Claim C4: when slot allocation and the mint both succeed,
`procserv_mint_badge(badge)` allocates a fresh capability slot (non-null and
not previously allocated) and returns that slot's path, now populated with a
capability derived from the server's main endpoint whose rights are exactly
{grant, write} and whose badge is the given badge value. -/
theorem mint_badge_success
    (env : KernelEnv) (st : procserv_state) (badge : Nat) (eobj : KObj)
    (hinv : AllocInv st)
    (halloc : env.allocOk = true) (hmint : env.mintOk = true)
    (hep : st.caps st.endpointSlot = some (Cap.mk eobj true true true none)) :
    (procserv_mint_badge env st badge).1
        = cspacepath_t.mk vkaRootCNode st.nextSlot vkaCNodeDepth ∧
    (procserv_mint_badge env st badge).1.capPtr ≠ 0 ∧
    (procserv_mint_badge env st badge).1.capPtr ∉ st.allocated ∧
    (procserv_mint_badge env st badge).2.allocated = st.nextSlot :: st.allocated ∧
    (procserv_mint_badge env st badge).2.caps (procserv_mint_badge env st badge).1.capPtr
        = some (Cap.mk eobj false true true (some badge)) := by
  obtain ⟨hpos, hbelow⟩ := hinv
  refine ⟨?_, ?_, ?_, ?_, ?_⟩ <;>
    simp only [procserv_mint_badge, vka_cspace_alloc_path, vka_cspace_make_path,
      vka_cnode_mint, halloc, hmint, if_true, hep, mintedCap, mintRightsRead,
      mintRightsWrite, mintRightsGrant]
  · omega
  · intro hmem
    exact absurd (hbelow _ hmem) (by omega)
  · simp

/-- Witness for C4 at a concrete input. -/
theorem mint_badge_success_witness :
    AllocInv bootState ∧ okEnv.allocOk = true ∧ okEnv.mintOk = true ∧
    bootState.caps bootState.endpointSlot
        = some (Cap.mk (KObj.endpointObj 0) true true true none) ∧
    ((procserv_mint_badge okEnv bootState 7).1
        = cspacepath_t.mk vkaRootCNode bootState.nextSlot vkaCNodeDepth ∧
     (procserv_mint_badge okEnv bootState 7).1.capPtr ≠ 0 ∧
     (procserv_mint_badge okEnv bootState 7).1.capPtr ∉ bootState.allocated ∧
     (procserv_mint_badge okEnv bootState 7).2.allocated
        = bootState.nextSlot :: bootState.allocated ∧
     (procserv_mint_badge okEnv bootState 7).2.caps
         (procserv_mint_badge okEnv bootState 7).1.capPtr
        = some (Cap.mk (KObj.endpointObj 0) false true true (some 7))) :=
  ⟨⟨by decide, by decide⟩, rfl, rfl, rfl,
    mint_badge_success okEnv bootState 7 (KObj.endpointObj 0)
      ⟨by decide, by decide⟩ rfl rfl rfl⟩

/-- Claim C5: if `procserv_mint_badge` fails at slot allocation it returns
the zeroed path with the state untouched; if it fails at the mint step it
frees the just-allocated slot and returns the zeroed path, so in both
failure cases the allocator's list of allocated slots (and the capability
space) is exactly what it was before the call — no net slot leak. -/
theorem mint_badge_failure_no_leak
    (env : KernelEnv) (st : procserv_state) (badge : Nat) :
    (env.allocOk = false → procserv_mint_badge env st badge = (emptyPath, st)) ∧
    (env.allocOk = true → env.mintOk = false →
      (procserv_mint_badge env st badge).1 = emptyPath ∧
      (procserv_mint_badge env st badge).2.allocated = st.allocated ∧
      (procserv_mint_badge env st badge).2.caps = st.caps) := by
  constructor
  · intro halloc
    simp [procserv_mint_badge, vka_cspace_alloc_path, halloc]
  · intro halloc hmint
    refine ⟨?_, ?_, ?_⟩ <;>
      simp [procserv_mint_badge, vka_cspace_alloc_path, vka_cnode_mint,
        vka_cspace_free, halloc, hmint, List.erase_cons_head]

/-- Witness for C5: the two failure cases at concrete inputs. -/
theorem mint_badge_failure_no_leak_witness :
    (procserv_mint_badge noAllocEnv bootState 7 = (emptyPath, bootState)) ∧
    ((procserv_mint_badge noMintEnv bootState 7).1 = emptyPath ∧
     (procserv_mint_badge noMintEnv bootState 7).2.allocated = bootState.allocated ∧
     (procserv_mint_badge noMintEnv bootState 7).2.caps = bootState.caps) :=
  ⟨(mint_badge_failure_no_leak noAllocEnv bootState 7).1 rfl,
   (mint_badge_failure_no_leak noMintEnv bootState 7).2 rfl rfl⟩

/-- Whenever `procserv_get_irq_handler` returns a non-zero handle, the
returned state's chash table maps `irq` to exactly that handle. -/
theorem get_irq_handler_caches
    (env : KernelEnv) (st : procserv_state) (irq : Nat)
    (h : (procserv_get_irq_handler env st irq).1 ≠ 0) :
    ((procserv_get_irq_handler env st irq).2).irqHandlerList irq
      = (procserv_get_irq_handler env st irq).1 := by
  by_cases hc : st.irqHandlerList irq ≠ 0
  · simp [procserv_get_irq_handler, hc]
  · cases halloc : env.allocOk with
    | false =>
        exfalso
        apply h
        simp [procserv_get_irq_handler, hc, vka_cspace_alloc_path, halloc]
    | true =>
        cases hget : env.irqGetOk with
        | false =>
            exfalso
            apply h
            simp [procserv_get_irq_handler, hc, vka_cspace_alloc_path, halloc, hget]
        | true =>
            simp [procserv_get_irq_handler, hc, vka_cspace_alloc_path, halloc, hget]

/-- Claim C6: if a call to `procserv_get_irq_handler(irq)` returns a
non-zero handle, then a second call for the same `irq` — under any kernel
environment, so without any new slot allocation or kernel request — returns
the identical handle and leaves the state exactly as it was: the first
successful call cached the handle and later calls serve it from the
cache. -/
theorem get_irq_handler_idempotent
    (env1 : KernelEnv) (st : procserv_state) (irq : Nat)
    (h : (procserv_get_irq_handler env1 st irq).1 ≠ 0) :
    ∀ env2 : KernelEnv,
      procserv_get_irq_handler env2 (procserv_get_irq_handler env1 st irq).2 irq
        = procserv_get_irq_handler env1 st irq := by
  intro env2
  have hcache := get_irq_handler_caches env1 st irq h
  rcases hr : procserv_get_irq_handler env1 st irq with ⟨v, st1⟩
  rw [hr] at h hcache
  simp only [] at h hcache
  simp [procserv_get_irq_handler, hcache, h]

/-- Witness for C6 at a concrete input. -/
theorem get_irq_handler_idempotent_witness :
    (procserv_get_irq_handler okEnv bootState 9).1 ≠ 0 ∧
    procserv_get_irq_handler okEnv (procserv_get_irq_handler okEnv bootState 9).2 9
      = procserv_get_irq_handler okEnv bootState 9 :=
  ⟨by decide, get_irq_handler_idempotent okEnv bootState 9 (by decide) okEnv⟩

/-- Claim C7: `procserv_find_device` fails before allocating any capability
slot when `size` is not an exact power of two in the supported exponent
range 0..31 (the size-bits scan of the code finds nothing exactly in that
case), returning a path with zero slot index and an untouched state; when
the size-bits scan succeeds but the device lookup fails, the just-allocated
slot is freed and a zero-`capPtr` path is returned, and when slot
allocation itself fails nothing is allocated either — no failure path leaks
a slot. -/
theorem find_device_failure_no_leak
    (env : KernelEnv) (st : procserv_state) (paddr size : Nat) :
    (findSizeBits size = none ↔ ∀ i, i < 32 → 2 ^ i ≠ size) ∧
    (findSizeBits size = none →
      procserv_find_device env st paddr size
        = ({ env.uninitPath with capPtr := 0 }, st)) ∧
    (env.allocOk = false →
      (procserv_find_device env st paddr size).1.capPtr = 0 ∧
      (procserv_find_device env st paddr size).2 = st) ∧
    (∀ b, findSizeBits size = some b → env.allocOk = true → env.devGetOk = false →
      (procserv_find_device env st paddr size).1.capPtr = 0 ∧
      (procserv_find_device env st paddr size).2.allocated = st.allocated ∧
      (procserv_find_device env st paddr size).2.caps = st.caps) := by
  refine ⟨?_, ?_, ?_, ?_⟩
  · simp [findSizeBits, List.find?_eq_none, List.mem_range]
  · intro hbits
    simp [procserv_find_device, hbits]
  · intro halloc
    cases hbits : findSizeBits size with
    | none => simp [procserv_find_device, hbits]
    | some b => simp [procserv_find_device, hbits, vka_cspace_alloc_path, halloc]
  · intro b hbits halloc hdev
    refine ⟨?_, ?_, ?_⟩ <;>
      simp [procserv_find_device, hbits, vka_cspace_alloc_path, vka_cspace_free,
        halloc, hdev, List.erase_cons_head]

/-- Witness for C7 at concrete inputs: `size = 100` is rejected with no
allocation, and for `size = 4096` a failing device lookup frees the slot. -/
theorem find_device_failure_no_leak_witness :
    (findSizeBits 100 = none ↔ ∀ i, i < 32 → 2 ^ i ≠ 100) ∧
    procserv_find_device okEnv bootState 4096 100
      = ({ okEnv.uninitPath with capPtr := 0 }, bootState) ∧
    ((procserv_find_device noDevEnv bootState 4096 4096).1.capPtr = 0 ∧
     (procserv_find_device noDevEnv bootState 4096 4096).2.allocated
        = bootState.allocated ∧
     (procserv_find_device noDevEnv bootState 4096 4096).2.caps = bootState.caps) :=
  ⟨(find_device_failure_no_leak okEnv bootState 4096 100).1,
   (find_device_failure_no_leak okEnv bootState 4096 100).2.1 (by decide),
   (find_device_failure_no_leak noDevEnv bootState 4096 4096).2.2.2 12
     (by decide) rfl rfl⟩

/-- Claim C8: `procserv_flush` tolerates a NULL frame list (it returns
having issued no cache operation) and tolerates null (zero) entries inside
the list, issuing the instruction-cache unify only for the non-null
entries; in particular `procserv_flush [0, v] 2` with `v ≠ 0` synchronizes
exactly `v`, and every issued unify targets a non-null member of the
list. -/
theorem flush_tolerates_null
    (nFrames : Nat) (fs : List Nat) (v : Nat) :
    procserv_flush none nFrames = [] ∧
    (v ≠ 0 → procserv_flush (some [0, v]) 2 = [(v, 0, REFOS_PAGE_SIZE)]) ∧
    (∀ x s e, (x, s, e) ∈ procserv_flush (some fs) nFrames → x ≠ 0 ∧ x ∈ fs) := by
  refine ⟨rfl, ?_, ?_⟩
  · intro hv
    simp [procserv_flush, List.range_succ, hv]
  · intro x s e hmem
    simp only [procserv_flush, List.mem_filterMap, List.mem_range] at hmem
    obtain ⟨i, hi, hif⟩ := hmem
    rw [List.getD_eq_getElem?_getD] at hif
    by_cases hz : (fs[i]?).getD 0 = 0
    · rw [if_pos hz] at hif
      cases hif
    · rw [if_neg hz] at hif
      rw [Option.some.injEq, Prod.mk.injEq, Prod.mk.injEq] at hif
      obtain ⟨hx, -, -⟩ := hif
      subst hx
      refine ⟨hz, ?_⟩
      rcases hg : fs[i]? with - | y
      · rw [hg] at hz
        simp at hz
      · simpa using List.getElem?_mem hg

/-- Witness for C8 at a concrete input. -/
theorem flush_tolerates_null_witness :
    procserv_flush none 3 = [] ∧
    procserv_flush (some [0, 7]) 2 = [(7, 0, REFOS_PAGE_SIZE)] :=
  ⟨(flush_tolerates_null 3 [0, 7] 7).1,
   (flush_tolerates_null 3 [0, 7] 7).2.1 (by decide)⟩

/-- The value returned by call `n` of `faketime` is the counter field of
the state reached after `n` calls. -/
theorem faketimeValueAt_eq (st0 : procserv_state) (n : Nat) :
    faketimeValueAt st0 n = (faketimeStateAfter st0 n).faketime := rfl

/-- Closed form for the `faketime` counter after `n` calls: the uint32_t
field advances by one per call, modulo `2^32`. -/
theorem faketimeStateAfter_closed_form
    (st0 : procserv_state) (h : st0.faketime < sizeTMod) :
    ∀ n, (faketimeStateAfter st0 n).faketime = (st0.faketime + n) % sizeTMod := by
  have hM : sizeTMod = 4294967296 := by norm_num [sizeTMod]
  intro n
  induction n with
  | zero =>
      simp [faketimeStateAfter, Nat.mod_eq_of_lt h]
  | succ n ih =>
      show (faketime (faketimeStateAfter st0 n)).2.faketime = _
      simp only [faketime]
      rw [ih, hM]
      omega

/-- Counterexample for C9 as stated: in the execution that starts at boot
(`faketime = 0`), call number `2^32 - 1` returns `2^32 - 1` and the next
call returns `0` — the uint32_t counter wraps, so the later of these two
successive calls does not return a strictly greater value. -/
theorem faketime_monotonic_cex :
    faketimeValueAt bootState (2 ^ 32 - 1) = 2 ^ 32 - 1 ∧
    faketimeValueAt bootState (2 ^ 32) = 0 ∧
    ¬ (faketimeValueAt bootState (2 ^ 32 - 1) < faketimeValueAt bootState (2 ^ 32)) := by
  have h0 : bootState.faketime = 0 := rfl
  have hlt : bootState.faketime < sizeTMod := by rw [h0]; norm_num [sizeTMod]
  have hM : sizeTMod = 4294967296 := by norm_num [sizeTMod]
  have h1 : faketimeValueAt bootState (2 ^ 32 - 1) = 2 ^ 32 - 1 := by
    rw [faketimeValueAt_eq, faketimeStateAfter_closed_form bootState hlt, h0, hM]
    omega
  have h2 : faketimeValueAt bootState (2 ^ 32) = 0 := by
    rw [faketimeValueAt_eq, faketimeStateAfter_closed_form bootState hlt, h0, hM]
    omega
  exact ⟨h1, h2, by rw [h1, h2]; omega⟩

/-- Claim C9 (amended): the logical clock is strictly increasing across two
successive calls except at the uint32_t wrap: whenever the counter (a value
below `2^32`, as it always is after initialisation) is not `2^32 - 1`, the
later of two successive `faketime` calls returns a strictly greater value
than the earlier one. -/
theorem faketime_increasing_below_wrap
    (st : procserv_state) (hlt : st.faketime < sizeTMod)
    (hne : st.faketime ≠ sizeTMod - 1) :
    (faketime st).1 < (faketime (faketime st).2).1 := by
  have hM : sizeTMod = 4294967296 := by norm_num [sizeTMod]
  rw [hM] at hlt hne
  simp only [faketime, hM]
  omega

/-- Witness for the amended C9 at a concrete state. -/
theorem faketime_increasing_below_wrap_witness :
    bootState.faketime < sizeTMod ∧ bootState.faketime ≠ sizeTMod - 1 ∧
    (faketime bootState).1 < (faketime (faketime bootState).2).1 :=
  ⟨by decide, by decide,
    faketime_increasing_below_wrap bootState (by decide) (by decide)⟩

/-- Claim C10: the bounds check of both transfer operations computes
`offset + len` in fixed-width unsigned (size_t, 32-bit) arithmetic: a call
is rejected with `EINVALIDPARAM` exactly when
`(offset + len) % 2^32 > REFOS_PAGE_SIZE`; in particular for
`offset = 2^32 - 1` and `len = 2`, whose mathematical sum exceeds one page,
the check passes and the operation proceeds to map and copy (it returns
`ESUCCESS` and the frame byte at the wild offset `2^32 - 1` is written). -/
theorem frame_bounds_check_wraps
    (env : KernelEnv) (st : procserv_state) (frame : Nat)
    (src dst : Nat → Nat) (len offset : Nat)
    (hoff : offset < sizeTMod) (hlen : len < sizeTMod) :
    ((procserv_frame_write env st frame src len offset).1 = EINVALIDPARAM ↔
      (offset + len) % sizeTMod > REFOS_PAGE_SIZE) ∧
    ((procserv_frame_read env st frame dst len offset).1 = EINVALIDPARAM ↔
      (offset + len) % sizeTMod > REFOS_PAGE_SIZE) ∧
    ((procserv_frame_write okEnv bootState 5 (fun _ => 42) 2 (2 ^ 32 - 1)).1
        = ESUCCESS ∧
     (procserv_frame_write okEnv bootState 5 (fun _ => 42) 2 (2 ^ 32 - 1)).2.frames
         5 (2 ^ 32 - 1) = 42) := by
  refine ⟨?_, ?_, by decide, by decide⟩
  · by_cases hc : (offset + len) % sizeTMod > REFOS_PAGE_SIZE
    · simp [procserv_frame_write, if_pos hc, hc]
    · cases hm : env.mapResult <;>
        simp [procserv_frame_write, if_neg hc, hm, hc]
  · by_cases hc : (offset + len) % sizeTMod > REFOS_PAGE_SIZE
    · simp [procserv_frame_read, if_pos hc, hc]
    · cases hm : env.mapResult <;>
        simp [procserv_frame_read, if_neg hc, hm, hc]

/-- Witness for C10 at a concrete input. -/
theorem frame_bounds_check_wraps_witness :
    4095 < sizeTMod ∧ 2 < sizeTMod ∧
    ((procserv_frame_write okEnv bootState 5 (fun _ => 3) 2 4095).1 = EINVALIDPARAM ↔
      (4095 + 2) % sizeTMod > REFOS_PAGE_SIZE) :=
  ⟨by decide, by decide,
    (frame_bounds_check_wraps okEnv bootState 5 (fun _ => 3) (fun _ => 3) 2 4095
      (by decide) (by decide)).1⟩
